import Mathlib

/-
Verification of the Online-shopping repository (src/app.py) against its
natural-language specification. The Python program is shallowly embedded:
the session cart (a Python dict from product name to a record of price and
quantity) becomes an insertion-ordered association list with unique keys,
the Streamlit button handlers become pure state-passing functions, raised
exceptions become Except values, and the float GST arithmetic is modelled
over the exact rationals.
-/

namespace OnlineShopping

/-- The exception classes declared at the top of app.py, plus the Python
built-in KeyError which the update/remove handlers can hit through bare
dict indexing. InvalidQuantityError is declared in the source but never
raised anywhere, and the embedding mirrors that. -/
inductive Err where
  | productNotFound
  | invalidQuantity
  | validationError
  | keyError
deriving DecidableEq, Repr

/-- One cart entry: the inner dict with keys price and qty stored at
st.session_state.cart[product] in app.py. Quantities come from a Streamlit
number input (an int) and prices from the catalog (ints), but both are
modelled as Int so that out-of-widget-range values can be discussed. -/
structure CartLine where
  price : Int
  qty : Int
deriving DecidableEq, Repr

/-- The session cart st.session_state.cart: a Python dict, i.e. an
insertion-ordered mapping from product name to a CartLine. -/
abbrev Cart := List (String × CartLine)

/-- The product catalog self.products built in ShoppingSystem.__init__
(app.py lines 19-28): name to unit price in rupees. -/
def products : List (String × Int) :=
  [("Laptop", 50000),
   ("Headphones", 1500),
   ("SamsungS22", 60000),
   ("Shirt", 800),
   ("Pant", 1200),
   ("Apple", 80),
   ("Banana", 40),
   ("Papaya", 60)]

/-- Python dict lookup d[k] / membership test, returning none when the key
is absent (the first, and in a well-formed dict only, binding wins). -/
def alistGet {β : Type} : List (String × β) → String → Option β
  | [], _ => none
  | (k0, v) :: rest, k => if k0 = k then some v else alistGet rest k

/-- Python dict assignment d[k] = v: replaces the value in place if the key
exists (keeping its position) and appends a new binding otherwise. -/
def dictSet : Cart → String → CartLine → Cart
  | [], k, v => [(k, v)]
  | (k0, v0) :: rest, k, v =>
      if k0 = k then (k, v) :: rest else (k0, v0) :: dictSet rest k v

/-- Python del d[k]: removes the binding for k (the first occurrence;
a well-formed dict has at most one). -/
def dictDel : Cart → String → Cart
  | [], _ => []
  | (k0, v0) :: rest, k => if k0 = k then rest else (k0, v0) :: dictDel rest k

/-- Number of cart entries keyed by a given product name (a Python dict
always has 0 or 1; the embedding proves this where needed). -/
def countKey : Cart → String → Nat
  | [], _ => 0
  | (k0, _) :: rest, k => (if k0 = k then 1 else 0) + countKey rest k

/-- Python truthiness of the cart dict, as used by `if not st.session_state.cart`. -/
def cart_is_empty (cart : Cart) : Bool := cart.isEmpty

/-- Clear Cart button handler (app.py lines 153-155): st.session_state.cart.clear(). -/
def clear_cart (_cart : Cart) : Cart := []

-- ---------------- Validators ----------------

/-- Membership in the regex character class [A-Za-z ] of validate_name. -/
def isNameChar (c : Char) : Bool :=
  (('A' ≤ c) && (c ≤ 'Z')) || (('a' ≤ c) && (c ≤ 'z')) || (c = ' ')

/-- Membership in the regex character class [0-9] of validate_phone. -/
def isAsciiDigit (c : Char) : Bool := ('0' ≤ c) && (c ≤ '9')

/-- Full match of the regex [A-Za-z ]+ : one or more class characters and
nothing else. -/
def nameRegexMatch (l : List Char) : Bool := !l.isEmpty && l.all isNameChar

/-- Full match of the regex [0-9]\x7b10\x7d : exactly ten ASCII digits. -/
def tenDigits (l : List Char) : Bool := (l.length == 10) && l.all isAsciiDigit

/-- Full match of a fixed prefix followed by exactly ten digits. -/
def prefixThenTen (pre l : List Char) : Bool :=
  (l.take pre.length == pre) && tenDigits (l.drop pre.length)

/-- Full match of the regex (0|91)?[0-9]\x7b10\x7d used by validate_phone:
the optional group (0|91)? contributes the empty prefix, the prefix 0, or
the prefix 91, followed by exactly ten digits. -/
def phoneRegexMatch (l : List Char) : Bool :=
  prefixThenTen [] l || prefixThenTen ['0'] l || prefixThenTen ['9', '1'] l

/-- ShoppingSystem.validate_name (app.py lines 30-33): raises
ValidationError unless the whole name matches [A-Za-z ]+ . -/
def validate_name (name : String) : Except Err Unit :=
  if nameRegexMatch name.data then Except.ok () else Except.error Err.validationError

/-- ShoppingSystem.validate_phone (app.py lines 35-38): raises
ValidationError unless the whole phone matches (0|91)?[0-9]\x7b10\x7d . -/
def validate_phone (phone : String) : Except Err Unit :=
  if phoneRegexMatch phone.data then Except.ok () else Except.error Err.validationError

-- ---------------- Invoice generation ----------------

/-- The structured content of the rendered invoice: customer data, one
(name, qty, cost) triple per cart item in iteration order, and the three
totals. The float arithmetic of app.py lines 57-58 is modelled exactly
over the rationals; the timestamp and the decimal rendering of numbers are
display concerns outside the claims. -/
structure Invoice where
  customer : String
  phone : String
  items : List (String × Int × Int)
  subtotal : Int
  gstAmount : ℚ
  grandTotal : ℚ
deriving DecidableEq, Repr

/-- Result of ShoppingSystem.generate_invoice: the invoice content, the
name of the file written (filename + ".txt", also the return value), and
the cart as it stands when the function returns (state passing: the body
only reads cart.items()). -/
structure GenResult where
  invoice : Invoice
  file : String
  cartAfter : Cart
deriving DecidableEq, Repr

/-- The gst_rate local of generate_invoice (app.py line 42): the float
literal 0.10, modelled exactly. -/
def gst_rate : ℚ := 10 / 100

/-- The accumulation loop of generate_invoice (app.py lines 52-55):
total starts at 0 and each item adds price * qty. -/
def invoiceLoop (cart : Cart) : Int × List (String × Int × Int) :=
  cart.foldl
    (fun acc entry =>
      (acc.1 + entry.2.price * entry.2.qty,
       acc.2 ++ [(entry.1, entry.2.qty, entry.2.price * entry.2.qty)]))
    (0, [])

/-- ShoppingSystem.generate_invoice (app.py lines 40-70): computes the
subtotal by the loop, gst_amount = total * gst_rate, grand_total =
total + gst_amount, writes the text to filename + ".txt" and returns that
name. It never assigns into cart, so the threaded cart is returned as is. -/
def generate_invoice (filename customer_name phone : String) (cart : Cart) : GenResult :=
  let pair := invoiceLoop cart
  let total := pair.1
  let gst_amount : ℚ := (total : ℚ) * gst_rate
  let grand_total : ℚ := (total : ℚ) + gst_amount
  { invoice :=
      { customer := customer_name
        phone := phone
        items := pair.2
        subtotal := total
        gstAmount := gst_amount
        grandTotal := grand_total }
    file := filename ++ ".txt"
    cartAfter := cart }

-- ---------------- Button handlers ----------------

/-- Add to Cart button handler (app.py lines 96-110): raises
ProductNotFoundError when the product is not in the catalog; otherwise
increments the existing line by quantity, or inserts a new line with the
catalog price. No quantity check of any kind is performed. -/
def add_to_cart (cart : Cart) (product : String) (quantity : Int) : Except Err Cart :=
  match alistGet products product with
  | none => Except.error Err.productNotFound
  | some price =>
      match alistGet cart product with
      | some line => Except.ok (dictSet cart product ⟨line.price, line.qty + quantity⟩)
      | none => Except.ok (dictSet cart product ⟨price, quantity⟩)

/-- Update Quantity button handler (app.py lines 135-140):
st.session_state.cart[selected_item]["qty"] = new_qty. Indexing an absent
key raises the Python KeyError (not ProductNotFoundError); otherwise the
qty of the line is replaced in place and its price kept. -/
def update_quantity (cart : Cart) (product : String) (new_qty : Int) : Except Err Cart :=
  match alistGet cart product with
  | none => Except.error Err.keyError
  | some line => Except.ok (dictSet cart product ⟨line.price, new_qty⟩)

/-- Remove Item button handler (app.py lines 143-148):
del st.session_state.cart[selected_item]; an absent key raises KeyError. -/
def remove_item (cart : Cart) (product : String) : Except Err Cart :=
  match alistGet cart product with
  | none => Except.error Err.keyError
  | some _ => Except.ok (dictDel cart product)

/-- One user action on the cart, as dispatched by the Streamlit buttons. -/
inductive UiOp where
  | addOp (product : String) (quantity : Int)
  | updateOp (product : String) (newQty : Int)
  | removeOp (product : String)
  | clearOp
deriving DecidableEq, Repr

/-- Effect of one button press on the session cart: every handler body is
wrapped in try/except with st.error, so a raised exception leaves the cart
unchanged. -/
def stepOp (cart : Cart) (op : UiOp) : Cart :=
  match op with
  | UiOp.addOp p q =>
      match add_to_cart cart p q with
      | Except.ok c => c
      | Except.error _ => cart
  | UiOp.updateOp p q =>
      match update_quantity cart p q with
      | Except.ok c => c
      | Except.error _ => cart
  | UiOp.removeOp p =>
      match remove_item cart p with
      | Except.ok c => c
      | Except.error _ => cart
  | UiOp.clearOp => clear_cart cart

/-- Cart state reached from the initial empty session cart
(st.session_state.cart = \x7b\x7d) by a sequence of button presses. -/
def runOps (ops : List UiOp) : Cart := ops.foldl stepOp []

-- ---------------- Place Order ----------------

/-- Observable outcome of the Place Order handler: the error message shown
by st.error if any, the list of files written, and the cart afterwards. -/
structure PlaceResult where
  errorMsg : Option String
  written : List String
  cart : Cart
deriving DecidableEq, Repr

/-- Place Order button handler (app.py lines 166-186): an empty cart is
rejected first with a message and nothing written; then name, phone and
filename are validated; on success generate_invoice writes the file and
the cart is cleared afterwards. -/
def place_order (cart : Cart) (customer_name phone filename : String) : PlaceResult :=
  if cart_is_empty cart then
    { errorMsg := some "Cart is empty! Add items before placing order."
      written := []
      cart := cart }
  else
    match validate_name customer_name with
    | Except.error _ =>
        { errorMsg := some "Customer name must contain only alphabets and spaces."
          written := []
          cart := cart }
    | Except.ok _ =>
        match validate_phone phone with
        | Except.error _ =>
            { errorMsg := some "Phone number must be 10 digits (0 or 91 optional)."
              written := []
              cart := cart }
        | Except.ok _ =>
            if filename.trim = "" then
              { errorMsg := some "File name cannot be empty!"
                written := []
                cart := cart }
            else
              let r := generate_invoice filename customer_name phone cart
              { errorMsg := none
                written := [r.file]
                cart := clear_cart r.cartAfter }

-- ---------------- Spec-side characterizations (for refinement claims) ----------------

/-- Wording of the spec for validatePhone: the whole string is a 10-digit
number, optionally prefixed by a single 0 or by 91 (total length 10, 11 or
12 digits), with no other characters. -/
def phoneSpecValid (s : String) : Prop :=
  (∀ c ∈ s.data, isAsciiDigit c = true) ∧
  (s.data.length = 10 ∨
   (s.data.length = 11 ∧ s.data.take 1 = ['0']) ∨
   (s.data.length = 12 ∧ s.data.take 2 = ['9', '1']))

/-- Wording of the spec for validateName: the name is non-empty and
consists only of alphabetic characters (A-Z, a-z, per the stated pattern)
and spaces. -/
def nameSpecValid (s : String) : Prop :=
  s ≠ "" ∧ ∀ c ∈ s.data, (('A' ≤ c ∧ c ≤ 'Z') ∨ ('a' ≤ c ∧ c ≤ 'z') ∨ c = ' ')

/-- The worked example of the spec: cart with Apple, qty 3 at 80 rupees,
and Banana, qty 2 at 40 rupees. -/
def exampleCart : Cart := [("Apple", ⟨80, 3⟩), ("Banana", ⟨40, 2⟩)]

-- ---------------- Dictionary lemmas ----------------

theorem alistGet_dictSet_same (cart : Cart) (k : String) (v : CartLine) :
    alistGet (dictSet cart k v) k = some v := by
  induction cart with
  | nil => simp [dictSet, alistGet]
  | cons hd tl ih =>
      obtain ⟨k0, v0⟩ := hd
      by_cases h : k0 = k
      · simp [dictSet, h, alistGet]
      · simp [dictSet, h, alistGet, ih]

theorem alistGet_dictSet_ne (cart : Cart) (k k2 : String) (v : CartLine)
    (h : k2 ≠ k) : alistGet (dictSet cart k v) k2 = alistGet cart k2 := by
  induction cart with
  | nil => simp [dictSet, alistGet, Ne.symm h]
  | cons hd tl ih =>
      obtain ⟨k0, v0⟩ := hd
      by_cases h0 : k0 = k
      · subst h0
        simp [dictSet, alistGet, Ne.symm h]
      · simp [dictSet, h0, alistGet, ih]

theorem countKey_dictSet_absent (cart : Cart) (k : String) (v : CartLine)
    (h : alistGet cart k = none) : countKey (dictSet cart k v) k = countKey cart k + 1 := by
  induction cart with
  | nil => simp [dictSet, countKey]
  | cons hd tl ih =>
      obtain ⟨k0, v0⟩ := hd
      by_cases h0 : k0 = k
      · simp [alistGet, h0] at h
      · simp [alistGet, h0] at h
        simp [dictSet, h0, countKey, ih h]

theorem countKey_dictSet_present (cart : Cart) (k : String) (v w : CartLine)
    (h : alistGet cart k = some w) : countKey (dictSet cart k v) k = countKey cart k := by
  induction cart with
  | nil => simp [alistGet] at h
  | cons hd tl ih =>
      obtain ⟨k0, v0⟩ := hd
      by_cases h0 : k0 = k
      · simp [dictSet, h0, countKey]
      · simp [alistGet, h0] at h
        simp [dictSet, h0, countKey, ih h]

theorem alistGet_eq_none_of_countKey_zero (cart : Cart) (k : String)
    (h : countKey cart k = 0) : alistGet cart k = none := by
  induction cart with
  | nil => rfl
  | cons hd tl ih =>
      obtain ⟨k0, v0⟩ := hd
      by_cases h0 : k0 = k
      · simp [countKey, h0] at h
      · simp [countKey, h0] at h
        simp [alistGet, h0, ih h]

theorem mem_dictSet (cart : Cart) (k : String) (v : CartLine)
    (x : String × CartLine) (h : x ∈ dictSet cart k v) : x ∈ cart ∨ x = (k, v) := by
  induction cart with
  | nil => simp [dictSet] at h; simp [h]
  | cons hd tl ih =>
      obtain ⟨k0, v0⟩ := hd
      by_cases h0 : k0 = k
      · simp [dictSet, h0] at h
        rcases h with h | h
        · exact Or.inr h
        · exact Or.inl (List.mem_cons_of_mem _ h)
      · simp [dictSet, h0] at h
        rcases h with h | h
        · exact Or.inl (by simp [h])
        · rcases ih h with h2 | h2
          · exact Or.inl (List.mem_cons_of_mem _ h2)
          · exact Or.inr h2

theorem mem_dictDel (cart : Cart) (k : String)
    (x : String × CartLine) (h : x ∈ dictDel cart k) : x ∈ cart := by
  induction cart with
  | nil => simp [dictDel] at h
  | cons hd tl ih =>
      obtain ⟨k0, v0⟩ := hd
      by_cases h0 : k0 = k
      · simp [dictDel, h0] at h
        exact List.mem_cons_of_mem _ h
      · simp [dictDel, h0] at h
        rcases h with h | h
        · simp [h]
        · exact List.mem_cons_of_mem _ (ih h)

theorem mem_of_alistGet_eq_some (cart : Cart) (k : String) (v : CartLine)
    (h : alistGet cart k = some v) : (k, v) ∈ cart := by
  induction cart with
  | nil => simp [alistGet] at h
  | cons hd tl ih =>
      obtain ⟨k0, v0⟩ := hd
      by_cases h0 : k0 = k
      · simp [alistGet, h0] at h
        simp [h0, h]
      · simp [alistGet, h0] at h
        exact List.mem_cons_of_mem _ (ih h)

-- ---------------- Invoice loop lemmas ----------------

theorem invoiceLoop_fst_go (cart : Cart) (a : Int) (l : List (String × Int × Int)) :
    (cart.foldl
      (fun acc entry =>
        (acc.1 + entry.2.price * entry.2.qty,
         acc.2 ++ [(entry.1, entry.2.qty, entry.2.price * entry.2.qty)]))
      (a, l)).1
      = a + (cart.map (fun e => e.2.price * e.2.qty)).sum := by
  induction cart generalizing a l with
  | nil => simp
  | cons hd tl ih => simp [List.foldl_cons, ih, add_assoc]

theorem invoiceLoop_fst (cart : Cart) :
    (invoiceLoop cart).1 = (cart.map (fun e => e.2.price * e.2.qty)).sum := by
  have := invoiceLoop_fst_go cart 0 []
  simpa [invoiceLoop] using this

-- ---------------- Claim theorems ----------------

/-- C9: the Clear Cart handler empties the cart unconditionally: on every
cart, empty or not, clear_cart succeeds, the result satisfies isEmpty, and
clear_cart is idempotent. -/
theorem C9_clear_empties_and_idempotent (cart : Cart) :
    cart_is_empty (clear_cart cart) = true ∧
    clear_cart (clear_cart cart) = clear_cart cart :=
  ⟨rfl, rfl⟩

/-- C8: generate_invoice produces the invoice artifact without mutating
the cart: the cart it returns (state passing of a body that only reads the
cart) is exactly the cart it was given, every line, price and quantity
included; clearing is done separately by the Place Order handler. -/
theorem C8_generate_preserves_cart (filename customer_name phone : String) (cart : Cart) :
    (generate_invoice filename customer_name phone cart).cartAfter = cart := rfl

/-- C7: a Place Order attempt with an empty cart fails with a user-visible
error before any invoice artifact is written: no file is created and the
cart stays as it was (empty). -/
theorem C7_empty_cart_order_rejected (cart : Cart) (customer_name phone filename : String)
    (h : cart_is_empty cart = true) :
    (place_order cart customer_name phone filename).errorMsg =
      some "Cart is empty! Add items before placing order." ∧
    (place_order cart customer_name phone filename).written = [] ∧
    (place_order cart customer_name phone filename).cart = cart := by
  simp [place_order, h]

theorem C7_empty_cart_order_rejected_witness :
    cart_is_empty [] = true ∧
    ((place_order [] "Alice" "9876543210" "invoice").errorMsg =
        some "Cart is empty! Add items before placing order." ∧
     (place_order [] "Alice" "9876543210" "invoice").written = [] ∧
     (place_order [] "Alice" "9876543210" "invoice").cart = []) :=
  ⟨rfl, C7_empty_cart_order_rejected [] "Alice" "9876543210" "invoice" rfl⟩

/-- C1: for every non-empty cart, generate_invoice computes the subtotal
as the sum over lines of unitPrice times quantity, the GST amount as
subtotal times 0.10, and the grand total as subtotal plus GST; on the
example cart of the spec (Apple qty 3 at 80, Banana qty 2 at 40) the figures
are exactly 320, 32 and 352. -/
theorem C1_invoice_totals :
    (∀ (filename customer_name phone : String) (cart : Cart), cart ≠ [] →
      (generate_invoice filename customer_name phone cart).invoice.subtotal =
        (cart.map (fun e => e.2.price * e.2.qty)).sum ∧
      (generate_invoice filename customer_name phone cart).invoice.gstAmount =
        ((generate_invoice filename customer_name phone cart).invoice.subtotal : ℚ) * (10 / 100) ∧
      (generate_invoice filename customer_name phone cart).invoice.grandTotal =
        ((generate_invoice filename customer_name phone cart).invoice.subtotal : ℚ) +
          (generate_invoice filename customer_name phone cart).invoice.gstAmount) ∧
    (generate_invoice "invoice" "Alice" "9876543210" exampleCart).invoice.subtotal = 320 ∧
    (generate_invoice "invoice" "Alice" "9876543210" exampleCart).invoice.gstAmount = 32 ∧
    (generate_invoice "invoice" "Alice" "9876543210" exampleCart).invoice.grandTotal = 352 := by
  refine ⟨?_, ?_, ?_, ?_⟩
  · intro filename customer_name phone cart _
    refine ⟨?_, rfl, rfl⟩
    simp [generate_invoice, invoiceLoop_fst]
  · rfl
  · norm_num [generate_invoice, invoiceLoop, exampleCart, gst_rate]
  · norm_num [generate_invoice, invoiceLoop, exampleCart, gst_rate]

theorem C1_invoice_totals_witness :
    exampleCart ≠ [] ∧
    ((generate_invoice "invoice" "Alice" "9876543210" exampleCart).invoice.subtotal =
        (exampleCart.map (fun e => e.2.price * e.2.qty)).sum ∧
     (generate_invoice "invoice" "Alice" "9876543210" exampleCart).invoice.gstAmount =
        ((generate_invoice "invoice" "Alice" "9876543210" exampleCart).invoice.subtotal : ℚ) * (10 / 100) ∧
     (generate_invoice "invoice" "Alice" "9876543210" exampleCart).invoice.grandTotal =
        ((generate_invoice "invoice" "Alice" "9876543210" exampleCart).invoice.subtotal : ℚ) +
          (generate_invoice "invoice" "Alice" "9876543210" exampleCart).invoice.gstAmount) :=
  ⟨by simp [exampleCart],
   C1_invoice_totals.1 "invoice" "Alice" "9876543210" exampleCart (by simp [exampleCart])⟩

-- ---------------- Validator lemmas ----------------

theorem prefixThenTen_iff (pre l : List Char) :
    prefixThenTen pre l = true ↔
      (l.take pre.length = pre ∧ (l.drop pre.length).length = 10 ∧
       ∀ c ∈ l.drop pre.length, isAsciiDigit c = true) := by
  simp [prefixThenTen, tenDigits, List.all_eq_true, and_assoc]

theorem prefixThenTen_char (pre l : List Char)
    (hpre : ∀ c ∈ pre, isAsciiDigit c = true) :
    prefixThenTen pre l = true ↔
      ((∀ c ∈ l, isAsciiDigit c = true) ∧
       l.length = pre.length + 10 ∧ l.take pre.length = pre) := by
  rw [prefixThenTen_iff]
  constructor
  · rintro ⟨h1, h2, h3⟩
    refine ⟨?_, ?_, h1⟩
    · intro c hc
      rw [← List.take_append_drop pre.length l] at hc
      rcases List.mem_append.mp hc with hc | hc
      · exact hpre c (h1 ▸ hc)
      · exact h3 c hc
    · conv_lhs => rw [← List.take_append_drop pre.length l]
      rw [List.length_append, h1, h2]
  · rintro ⟨hall, hlen, htake⟩
    refine ⟨htake, ?_, ?_⟩
    · rw [List.length_drop, hlen]
      omega
    · intro c hc
      exact hall c (List.mem_of_mem_drop hc)

theorem phoneRegexMatch_iff (l : List Char) :
    phoneRegexMatch l = true ↔
      ((∀ c ∈ l, isAsciiDigit c = true) ∧
       (l.length = 10 ∨ (l.length = 11 ∧ l.take 1 = ['0']) ∨
        (l.length = 12 ∧ l.take 2 = ['9', '1']))) := by
  unfold phoneRegexMatch
  rw [Bool.or_eq_true, Bool.or_eq_true,
      prefixThenTen_char [] l (by intro c hc; simp at hc),
      prefixThenTen_char ['0'] l (by intro c hc; simp at hc; simp [hc, isAsciiDigit]),
      prefixThenTen_char ['9', '1'] l
        (by intro c hc; simp at hc; rcases hc with hc | hc <;> simp [hc, isAsciiDigit])]
  constructor
  · rintro ((⟨h1, h2, _⟩ | ⟨h1, h2, h3⟩) | ⟨h1, h2, h3⟩)
    · exact ⟨h1, Or.inl (by simpa using h2)⟩
    · exact ⟨h1, Or.inr (Or.inl ⟨by simp at h2; omega, by simpa using h3⟩)⟩
    · exact ⟨h1, Or.inr (Or.inr ⟨by simp at h2; omega, by simpa using h3⟩)⟩
  · rintro ⟨h1, (h2 | ⟨h2, h3⟩ | ⟨h2, h3⟩)⟩
    · exact Or.inl (Or.inl ⟨h1, by simpa using h2, by simp⟩)
    · exact Or.inl (Or.inr ⟨h1, by simp; omega, by simpa using h3⟩)
    · exact Or.inr ⟨h1, by simp; omega, by simpa using h3⟩

/-- C5: validate_phone succeeds exactly on the strings the spec describes:
all digits, of total length 10, or length 11 starting with 0, or length 12
starting with 91; the four examples of the spec behave as stated. -/
theorem C5_validate_phone_correct :
    (∀ s : String, validate_phone s = Except.ok () ↔ phoneSpecValid s) ∧
    validate_phone "9876543210" = Except.ok () ∧
    validate_phone "09876543210" = Except.ok () ∧
    validate_phone "919876543210" = Except.ok () ∧
    validate_phone "12345" = Except.error Err.validationError := by
  refine ⟨?_, rfl, rfl, rfl, rfl⟩
  intro s
  have hiff := phoneRegexMatch_iff s.data
  unfold validate_phone phoneSpecValid
  by_cases h : phoneRegexMatch s.data = true
  · rw [if_pos h]
    exact ⟨fun _ => hiff.mp h, fun _ => rfl⟩
  · rw [if_neg h]
    constructor
    · intro hcontra
      exact absurd hcontra (by simp)
    · intro hspec
      exact absurd (hiff.mpr hspec) h

/-- C6: validate_name succeeds exactly on non-empty strings made of the
characters A-Z, a-z and space; the three examples of the spec behave as
stated. -/
theorem C6_validate_name_correct :
    (∀ s : String, validate_name s = Except.ok () ↔ nameSpecValid s) ∧
    validate_name "John Smith" = Except.ok () ∧
    validate_name "John3" = Except.error Err.validationError ∧
    validate_name "" = Except.error Err.validationError := by
  refine ⟨?_, rfl, rfl, rfl⟩
  intro s
  have hchar : ∀ c : Char, isNameChar c = true ↔
      (('A' ≤ c ∧ c ≤ 'Z') ∨ ('a' ≤ c ∧ c ≤ 'z') ∨ c = ' ') := by
    intro c
    simp [isNameChar, Bool.or_eq_true, Bool.and_eq_true, decide_eq_true_iff, or_assoc]
  have hempty : s = "" ↔ s.data = [] := by
    simp [String.ext_iff]
  have hmatch : nameRegexMatch s.data = true ↔
      (s.data ≠ [] ∧ ∀ c ∈ s.data, isNameChar c = true) := by
    simp [nameRegexMatch, List.all_eq_true, List.isEmpty_iff]
  unfold validate_name nameSpecValid
  by_cases h : nameRegexMatch s.data = true
  · rw [if_pos h]
    rcases hmatch.mp h with ⟨hne, hall⟩
    exact ⟨fun _ => ⟨fun he => hne (hempty.mp he), fun c hc => (hchar c).mp (hall c hc)⟩,
           fun _ => rfl⟩
  · rw [if_neg h]
    constructor
    · intro hcontra
      exact absurd hcontra (by simp)
    · rintro ⟨hne, hall⟩
      have hm : nameRegexMatch s.data = true :=
        hmatch.mpr ⟨fun he => hne (hempty.mpr he), fun c hc => (hchar c).mpr (hall c hc)⟩
      exact absurd hm h

/-- C3 counterexample: adding a catalog product with quantity 0 to the
empty cart does not fail with InvalidQuantity; the handler succeeds and
stores the zero quantity, because it contains no quantity check at all
(InvalidQuantityError is declared in app.py but never raised). -/
theorem C3_zero_qty_add_succeeds :
    add_to_cart [] "Apple" 0 = Except.ok [("Apple", ⟨80, 0⟩)] ∧
    add_to_cart [] "Apple" 0 ≠ Except.error Err.invalidQuantity :=
  ⟨rfl, fun h => Except.noConfusion h⟩

/-- C3 amended: for a product in the catalog and any quantity, zero or
negative included, the Add to Cart handler succeeds and records that
quantity; it never raises InvalidQuantityError (quantities below 1 are
prevented only by the minimum of 1 on the number-input widget). -/
theorem C3_amended_no_quantity_check (cart : Cart) (p : String) (q price : Int)
    (hp : alistGet products p = some price) (_hq : q ≤ 0)
    (hnone : alistGet cart p = none) :
    add_to_cart cart p q = Except.ok (dictSet cart p ⟨price, q⟩) ∧
    add_to_cart cart p q ≠ Except.error Err.invalidQuantity := by
  unfold add_to_cart
  rw [hp, hnone]
  exact ⟨rfl, fun h => Except.noConfusion h⟩

theorem C3_amended_no_quantity_check_witness :
    alistGet products "Apple" = some 80 ∧ (0 : Int) ≤ 0 ∧
    alistGet ([] : Cart) "Apple" = none ∧
    (add_to_cart [] "Apple" 0 = Except.ok (dictSet [] "Apple" ⟨80, 0⟩) ∧
     add_to_cart [] "Apple" 0 ≠ Except.error Err.invalidQuantity) :=
  ⟨rfl, le_refl 0, rfl,
   C3_amended_no_quantity_check [] "Apple" 0 80 rfl (le_refl 0) rfl⟩

/-- C4 counterexample: setting the quantity of an existing line to 0 does
not fail with InvalidQuantityError; the bare dict assignment of the Update
Quantity handler succeeds and stores 0. Moreover, updating a product with
no cart line fails with the Python KeyError, not with ProductNotFoundError. -/
theorem C4_update_no_quantity_check :
    update_quantity [("Apple", ⟨80, 2⟩)] "Apple" 0 = Except.ok [("Apple", ⟨80, 0⟩)] ∧
    update_quantity [("Apple", ⟨80, 2⟩)] "Apple" 0 ≠ Except.error Err.invalidQuantity ∧
    update_quantity [] "Apple" 5 = Except.error Err.keyError ∧
    update_quantity [] "Apple" 5 ≠ Except.error Err.productNotFound :=
  ⟨rfl, fun h => Except.noConfusion h, rfl, by
    intro h
    have := Except.error.inj h
    exact Err.noConfusion this⟩

/-- C4 amended: update_quantity fails with a key-lookup error (the Python
KeyError, not ProductNotFoundError) when the cart has no line for the
product, and otherwise replaces the quantity of the existing line with the new
quantity whatever its value (no InvalidQuantityError; newQuantity ≥ 1 is
enforced only by the widget), keeping the unit price of that line and leaving
every other line unchanged. -/
theorem C4_amended_update_behavior (cart : Cart) (p : String) (q : Int) :
    (alistGet cart p = none → update_quantity cart p q = Except.error Err.keyError) ∧
    (∀ line : CartLine, alistGet cart p = some line →
      update_quantity cart p q = Except.ok (dictSet cart p ⟨line.price, q⟩) ∧
      alistGet (dictSet cart p ⟨line.price, q⟩) p = some ⟨line.price, q⟩ ∧
      ∀ p2, p2 ≠ p → alistGet (dictSet cart p ⟨line.price, q⟩) p2 = alistGet cart p2) := by
  constructor
  · intro hnone
    unfold update_quantity
    rw [hnone]
  · intro line hline
    unfold update_quantity
    rw [hline]
    exact ⟨rfl, alistGet_dictSet_same cart p ⟨line.price, q⟩,
           fun p2 h2 => alistGet_dictSet_ne cart p p2 ⟨line.price, q⟩ h2⟩

def witnessCart : Cart := [("Apple", ⟨80, 2⟩), ("Banana", ⟨40, 1⟩)]

theorem C4_amended_update_behavior_witness :
    alistGet witnessCart "Apple" = some ⟨80, 2⟩ ∧
    (update_quantity witnessCart "Apple" 7 =
        Except.ok (dictSet witnessCart "Apple" ⟨80, 7⟩) ∧
     alistGet (dictSet witnessCart "Apple" ⟨80, 7⟩) "Apple" = some ⟨80, 7⟩ ∧
     ∀ p2, p2 ≠ "Apple" →
        alistGet (dictSet witnessCart "Apple" ⟨80, 7⟩) p2 = alistGet witnessCart p2) :=
  ⟨rfl, (C4_amended_update_behavior witnessCart "Apple" 7).2 ⟨80, 2⟩ rfl⟩

-- ---------------- Step lemmas for cart operations ----------------

theorem stepOp_add_known (c : Cart) (p : String) (q price : Int)
    (hp : alistGet products p = some price) :
    stepOp c (UiOp.addOp p q) =
      match alistGet c p with
      | some line => dictSet c p ⟨line.price, line.qty + q⟩
      | none => dictSet c p ⟨price, q⟩ := by
  simp only [stepOp, add_to_cart]
  rw [hp]
  cases alistGet c p <;> rfl

theorem stepOp_add_unknown (c : Cart) (p : String) (q : Int)
    (hp : alistGet products p = none) :
    stepOp c (UiOp.addOp p q) = c := by
  simp only [stepOp, add_to_cart]
  rw [hp]

theorem stepOp_update_eq (c : Cart) (p : String) (q : Int) :
    stepOp c (UiOp.updateOp p q) =
      match alistGet c p with
      | some line => dictSet c p ⟨line.price, q⟩
      | none => c := by
  simp only [stepOp, update_quantity]
  cases alistGet c p <;> rfl

theorem stepOp_remove_eq (c : Cart) (p : String) :
    stepOp c (UiOp.removeOp p) =
      match alistGet c p with
      | some _ => dictDel c p
      | none => c := by
  simp only [stepOp, remove_item]
  cases alistGet c p <;> rfl

theorem stepOp_clear_eq (c : Cart) : stepOp c UiOp.clearOp = [] := rfl

theorem add_fold_present (p : String) (price : Int)
    (hp : alistGet products p = some price) (qs : List Int) :
    ∀ (cart : Cart) (line : CartLine), alistGet cart p = some line →
      countKey cart p = 1 →
      alistGet (qs.foldl (fun c q => stepOp c (UiOp.addOp p q)) cart) p =
        some ⟨line.price, line.qty + qs.sum⟩ ∧
      countKey (qs.foldl (fun c q => stepOp c (UiOp.addOp p q)) cart) p = 1 := by
  induction qs with
  | nil =>
      intro cart line h hc
      simpa using ⟨h, hc⟩
  | cons q rest ih =>
      intro cart line h hc
      have hstep : stepOp cart (UiOp.addOp p q) = dictSet cart p ⟨line.price, line.qty + q⟩ := by
        rw [stepOp_add_known cart p q price hp, h]
      rw [List.foldl_cons, hstep]
      have h1 : alistGet (dictSet cart p ⟨line.price, line.qty + q⟩) p =
          some ⟨line.price, line.qty + q⟩ := alistGet_dictSet_same cart p _
      have h2 : countKey (dictSet cart p ⟨line.price, line.qty + q⟩) p = 1 := by
        rw [countKey_dictSet_present cart p _ line h, hc]
      have := ih (dictSet cart p ⟨line.price, line.qty + q⟩) ⟨line.price, line.qty + q⟩ h1 h2
      simpa [add_assoc] using this

/-- C2: starting from a cart with no line for a catalog product, any
non-empty sequence of Add to Cart presses for that product (each with
quantity at least 1) leaves exactly one line for it, whose quantity is the
sum of all the quantities added. -/
theorem C2_repeated_adds_accumulate (p : String) (price : Int)
    (hp : alistGet products p = some price)
    (qs : List Int) (hqs : ∀ q ∈ qs, 1 ≤ q) (hne : qs ≠ [])
    (cart : Cart) (h0 : countKey cart p = 0) :
    countKey (qs.foldl (fun c q => stepOp c (UiOp.addOp p q)) cart) p = 1 ∧
    alistGet (qs.foldl (fun c q => stepOp c (UiOp.addOp p q)) cart) p =
      some ⟨price, qs.sum⟩ := by
  match qs, hne with
  | q0 :: rest, _ =>
    have hnone : alistGet cart p = none := alistGet_eq_none_of_countKey_zero cart p h0
    have hstep : stepOp cart (UiOp.addOp p q0) = dictSet cart p ⟨price, q0⟩ := by
      rw [stepOp_add_known cart p q0 price hp, hnone]
    have h1 : alistGet (dictSet cart p ⟨price, q0⟩) p = some ⟨price, q0⟩ :=
      alistGet_dictSet_same cart p _
    have h2 : countKey (dictSet cart p ⟨price, q0⟩) p = 1 := by
      rw [countKey_dictSet_absent cart p _ hnone, h0]
    have hrest := add_fold_present p price hp rest (dictSet cart p ⟨price, q0⟩)
      ⟨price, q0⟩ h1 h2
    rw [List.foldl_cons, hstep]
    exact ⟨hrest.2, by simpa using hrest.1⟩

theorem C2_repeated_adds_accumulate_witness :
    alistGet products "Apple" = some 80 ∧ (∀ q ∈ [(3 : Int), 2], 1 ≤ q) ∧
    ([(3 : Int), 2] ≠ []) ∧ countKey [] "Apple" = 0 ∧
    (countKey ([(3 : Int), 2].foldl
        (fun c q => stepOp c (UiOp.addOp "Apple" q)) []) "Apple" = 1 ∧
     alistGet ([(3 : Int), 2].foldl
        (fun c q => stepOp c (UiOp.addOp "Apple" q)) []) "Apple" = some ⟨80, 5⟩) :=
  ⟨rfl, by decide, by decide, rfl,
   C2_repeated_adds_accumulate "Apple" 80 rfl [3, 2] (by decide) (by decide) [] rfl⟩

-- ---------------- Price invariant ----------------

/-- Every cart line carries the catalog price of its product. -/
def priceInv (cart : Cart) : Prop :=
  ∀ pr ∈ cart, alistGet products pr.1 = some pr.2.price

theorem priceInv_stepOp (cart : Cart) (op : UiOp) (h : priceInv cart) :
    priceInv (stepOp cart op) := by
  cases op with
  | addOp p q =>
      cases hp : alistGet products p with
      | none =>
          rw [stepOp_add_unknown cart p q hp]
          exact h
      | some price =>
          rw [stepOp_add_known cart p q price hp]
          cases hc : alistGet cart p with
          | none =>
              intro pr hpr
              rcases mem_dictSet cart p ⟨price, q⟩ pr hpr with hm | hm
              · exact h pr hm
              · rw [hm]
                exact hp
          | some line =>
              intro pr hpr
              rcases mem_dictSet cart p ⟨line.price, line.qty + q⟩ pr hpr with hm | hm
              · exact h pr hm
              · rw [hm]
                exact h (p, line) (mem_of_alistGet_eq_some cart p line hc)
  | updateOp p q =>
      rw [stepOp_update_eq cart p q]
      cases hc : alistGet cart p with
      | none => exact h
      | some line =>
          intro pr hpr
          rcases mem_dictSet cart p ⟨line.price, q⟩ pr hpr with hm | hm
          · exact h pr hm
          · rw [hm]
            exact h (p, line) (mem_of_alistGet_eq_some cart p line hc)
  | removeOp p =>
      rw [stepOp_remove_eq cart p]
      cases hc : alistGet cart p with
      | none => exact h
      | some line =>
          intro pr hpr
          exact h pr (mem_dictDel cart p pr hpr)
  | clearOp =>
      intro pr hpr
      simp [stepOp_clear_eq] at hpr

theorem priceInv_foldl (ops : List UiOp) :
    ∀ cart : Cart, priceInv cart → priceInv (ops.foldl stepOp cart) := by
  induction ops with
  | nil => intro cart h; exact h
  | cons op rest ih =>
      intro cart h
      rw [List.foldl_cons]
      exact ih (stepOp cart op) (priceInv_stepOp cart op h)

/-- C10: in every cart state reachable from the empty session cart by the
add, update, remove and clear button handlers, the stored unit price of
each line equals the catalog price of its product (the catalog is never
mutated and every stored price originates from it). -/
theorem C10_reachable_prices_match_catalog (ops : List UiOp) (p : String) (line : CartLine)
    (h : (p, line) ∈ runOps ops) : alistGet products p = some line.price := by
  have hinv : priceInv (runOps ops) := by
    unfold runOps
    exact priceInv_foldl ops [] (fun pr hpr => absurd hpr (List.not_mem_nil pr))
  exact hinv (p, line) h

theorem C10_reachable_prices_match_catalog_witness :
    (("Apple", (⟨80, 2⟩ : CartLine)) ∈ runOps [UiOp.addOp "Apple" 2]) ∧
    alistGet products "Apple" = some (⟨80, 2⟩ : CartLine).price :=
  ⟨by decide,
   C10_reachable_prices_match_catalog [UiOp.addOp "Apple" 2] "Apple" ⟨80, 2⟩ (by decide)⟩

end OnlineShopping
